import Mathlib

/-!
Shallow embedding of the PCIe TPH (TLP Processing Hints) driver
(drivers/pci/pcie/tph.c and its historical variant) for verification of its
natural-language specification.

Configuration-space and MMIO writes are recorded as explicit events so that
frame conditions ("performs zero register writes") and ordering conditions
("TPH is disabled before the tag is written") can be stated.  Configuration
reads always succeed and return the register contents held in the device
state; the integer status returns of the C functions are modelled accordingly
(0 on success).
-/

namespace Tph

/-! ## Register layout constants (PCIe spec / include/uapi/linux/pci_regs.h) -/

def PCI_TPH_CAP : Nat := 4
def PCI_TPH_CTRL : Nat := 8

def PCI_TPH_CAP_NO_ST : Nat := 0x1
def PCI_TPH_CAP_INT_VEC : Nat := 0x2
def PCI_TPH_CAP_DEV_SPEC : Nat := 0x4
def PCI_TPH_CAP_EXT_TPH : Nat := 0x100
def PCI_TPH_CAP_EXT_TPH_SHIFT : Nat := 8
def PCI_TPH_CAP_INT_VEC_SHIFT : Nat := 1
def PCI_TPH_CAP_NO_ST_SHIFT : Nat := 0
def PCI_TPH_CAP_LOC_MASK : Nat := 0x600
def PCI_TPH_CAP_LOC_SHIFT : Nat := 9
def PCI_TPH_LOC_NONE : Nat := 0x000
def PCI_TPH_LOC_CAP : Nat := 0x200
def PCI_TPH_LOC_MSIX : Nat := 0x400
def PCI_TPH_CAP_ST_MASK : Nat := 0x07FF0000
def PCI_TPH_CAP_ST_SHIFT : Nat := 16
def PCI_TPH_BASE_SIZEOF : Nat := 0xc
def PCI_TPH_ST_TABLE : Nat := 0xc

def PCI_TPH_CTRL_MODE_SEL_MASK : Nat := 0x7
def PCI_TPH_CTRL_MODE_SEL_SHIFT : Nat := 0
def PCI_TPH_NO_ST_MODE : Nat := 0
def PCI_TPH_INT_VEC_MODE : Nat := 1
def PCI_TPH_DEV_SPEC_MODE : Nat := 2
def PCI_TPH_CTRL_REQ_EN_MASK : Nat := 0x300
def PCI_TPH_CTRL_REQ_EN_SHIFT : Nat := 8
def PCI_TPH_REQ_DISABLE : Nat := 0
def PCI_TPH_REQ_TPH_ONLY : Nat := 1
def PCI_TPH_REQ_EXT_TPH : Nat := 3

def PCI_EXP_DEVCAP2_TPH_COMP_MASK : Nat := 0x3000
def PCI_EXP_DEVCAP2_TPH_COMP_SHIFT : Nat := 12

/-! ## Error codes (negated on return, as in the kernel) -/

def EINVAL : Int := 22
def EBUSY : Int := 16
def ENOTSUPP : Int := 524
def ENODEV : Int := 19
def ENXIO : Int := 6

/-! ## Bitfield helpers (FIELD_GET / FIELD_PREP and 32-bit complement) -/

def field_get (mask shift val : Nat) : Nat := (val &&& mask) >>> shift

def field_prep (mask shift val : Nat) : Nat := (val <<< shift) &&& mask

/-- Complement of a mask within a 32-bit register, i.e. `~mask` on `u32`. -/
def mask32c (m : Nat) : Nat := 0xFFFFFFFF ^^^ m

/-! ## Data model -/

/-- Memory type argument of the steering-tag query (`enum tph_mem_type`). -/
inductive TphMemType where
  | vm  -- TPH_MEM_TYPE_VM, volatile memory
  | pm  -- TPH_MEM_TYPE_PM, persistent memory
deriving DecidableEq

/-- Hardware-visible write events: 32-bit config-space writes, 16-bit
config-space word writes (ST table entries) and MMIO writes to an MSI-X
vector control register. -/
inductive Ev where
  | cfgWrite (off : Nat) (val : Nat)
  | cfgWriteWord (off : Nat) (val : Nat)
  | msixWrite (idx : Nat) (val : Nat)
deriving DecidableEq

/-- Device state: the `pci_dev` bookkeeping fields used by the TPH code, the
two TPH capability-structure registers, and the external collaborators the
code consults (MSI-X state, the DEVCAP2 register of the Root Port, the firmware
_DSM).  `rpDevcap2 = none` models "no Root Port found or its capability
register could not be read"; `rpBridgeFound = false` models a missing ACPI
bridge handle; `dsmReply uid = none` models a failed or malformed _DSM
reply, `some v` a 64-bit reply buffer `v`. -/
structure Dev where
  tph_cap : Nat
  tph_enabled : Bool
  tph_mode : Nat
  tph_req_type : Nat
  capReg : Nat
  ctrlReg : Nat
  msix_enabled : Bool
  rpDevcap2 : Option Nat
  msiDescs : List Nat
  msixVecCtrl : Nat → Nat
  rpBridgeFound : Bool
  dsmReply : Nat → Option Nat

/-- Global boot-time policy switches (`pci_tph_disabled()` /
`pci_tph_nostmode()`). -/
structure Policy where
  notph : Bool
  nostmode : Bool

/-! ## tph.c, final variant: mode/enable state machine -/

/-- C `get_st_modes`: mask the three mode-support bits out of the live
capability register. -/
def get_st_modes (d : Dev) : Nat :=
  d.capReg &&& (PCI_TPH_CAP_NO_ST ||| PCI_TPH_CAP_INT_VEC ||| PCI_TPH_CAP_DEV_SPEC)

/-- C `get_rp_completer_type`: 0 when the Root Port is missing or its
DEVCAP2 register cannot be read, otherwise the TPH completer field. -/
def get_rp_completer_type (d : Dev) : Nat :=
  match d.rpDevcap2 with
  | none => 0
  | some reg => field_get PCI_EXP_DEVCAP2_TPH_COMP_MASK PCI_EXP_DEVCAP2_TPH_COMP_SHIFT reg

/-- C `pcie_tph_enabled`. -/
def pcie_tph_enabled (d : Dev) : Bool := d.tph_enabled

/-- C `pcie_disable_tph`: clear the whole control register and the
bookkeeping fields; a no-op without the capability or when not enabled. -/
def pcie_disable_tph (d : Dev) : Dev × List Ev :=
  if d.tph_cap = 0 then (d, [])
  else if d.tph_enabled = false then (d, [])
  else ({ d with ctrlReg := 0, tph_mode := 0, tph_req_type := 0, tph_enabled := false },
        [Ev.cfgWrite (d.tph_cap + PCI_TPH_CTRL) 0])

/-- The `switch (mode)` of C `pcie_enable_tph`; `none` is the default
branch. -/
def select_tph_mode (mode : Nat) : Option Nat :=
  if mode = PCI_TPH_CAP_INT_VEC then some PCI_TPH_INT_VEC_MODE
  else if mode = PCI_TPH_CAP_DEV_SPEC then some PCI_TPH_DEV_SPEC_MODE
  else if mode = PCI_TPH_CAP_NO_ST then some PCI_TPH_NO_ST_MODE
  else none

/-- C `pcie_enable_tph`.  Note on the request-type negotiation: the C source
reads `reg = pci_read_config_dword(pdev, pdev->tph_cap + PCI_TPH_CAP, &reg);`,
so after the call `reg` holds the status return of that call (0 on success),
not the capability register contents just stored through `&reg`; the
embedding therefore continues with `reg = 0` on this line. -/
def pcie_enable_tph (d : Dev) (mode : Nat) : Int × Dev × List Ev :=
  if d.tph_cap = 0 then (-EINVAL, d, [])
  else if d.tph_enabled = true then (-EBUSY, d, [])
  else
    let dev_modes := get_st_modes d
    if mode &&& dev_modes = 0 then (-EINVAL, d, [])
    else
      match select_tph_mode mode with
      | none => (-EINVAL, d, [])
      | some m =>
        let reg : Nat := 0
        let devReq :=
          if field_get PCI_TPH_CAP_EXT_TPH PCI_TPH_CAP_EXT_TPH_SHIFT reg ≠ 0
          then PCI_TPH_REQ_EXT_TPH else PCI_TPH_REQ_TPH_ONLY
        let rp_req_type := get_rp_completer_type d
        let final_req := min devReq rp_req_type
        if final_req = PCI_TPH_REQ_DISABLE then
          (-ENOTSUPP, { d with tph_mode := m, tph_req_type := final_req }, [])
        else
          let reg2 := d.ctrlReg
          let reg3 := (reg2 &&& mask32c PCI_TPH_CTRL_MODE_SEL_MASK) |||
                      field_prep PCI_TPH_CTRL_MODE_SEL_MASK PCI_TPH_CTRL_MODE_SEL_SHIFT m
          let reg4 := (reg3 &&& mask32c PCI_TPH_CTRL_REQ_EN_MASK) |||
                      field_prep PCI_TPH_CTRL_REQ_EN_MASK PCI_TPH_CTRL_REQ_EN_SHIFT final_req
          ((0 : Int),
           { d with tph_mode := m, tph_req_type := final_req,
                    ctrlReg := reg4, tph_enabled := true },
           [Ev.cfgWrite (d.tph_cap + PCI_TPH_CTRL) reg4])

/-- C `pcie_tph_modes`: 0 without the capability, otherwise the live
mode-support bits. -/
def pcie_tph_modes (d : Dev) : Nat :=
  if d.tph_cap = 0 then 0 else get_st_modes d

/-! ## tph.c, steering-tag variant: table writer and ACPI resolver -/

/-- C `set_ctrl_reg_mode_sel`: read-modify-write of the ST Mode Select
field. -/
def set_ctrl_reg_mode_sel (d : Dev) (st_mode : Nat) : Dev × List Ev :=
  let r := (d.ctrlReg &&& mask32c PCI_TPH_CTRL_MODE_SEL_MASK) |||
           field_prep PCI_TPH_CTRL_MODE_SEL_MASK PCI_TPH_CTRL_MODE_SEL_SHIFT st_mode
  ({ d with ctrlReg := r }, [Ev.cfgWrite (d.tph_cap + PCI_TPH_CTRL) r])

/-- C `set_ctrl_reg_req_en`: read-modify-write of the TPH Requester Enable
field. -/
def set_ctrl_reg_req_en (d : Dev) (req_type : Nat) : Dev × List Ev :=
  let r := (d.ctrlReg &&& mask32c PCI_TPH_CTRL_REQ_EN_MASK) |||
           field_prep PCI_TPH_CTRL_REQ_EN_MASK PCI_TPH_CTRL_REQ_EN_SHIFT req_type
  ({ d with ctrlReg := r }, [Ev.cfgWrite (d.tph_cap + PCI_TPH_CTRL) r])

/-- C `int_vec_mode_supported` (steering-tag variant). -/
def int_vec_mode_supported (d : Dev) : Bool :=
  field_get PCI_TPH_CAP_INT_VEC PCI_TPH_CAP_INT_VEC_SHIFT d.capReg ≠ 0

/-- C `get_st_table_loc`. -/
def get_st_table_loc (d : Dev) : Nat :=
  field_get PCI_TPH_CAP_LOC_MASK PCI_TPH_CAP_LOC_SHIFT d.capReg

/-- C `msix_index_in_bound`: the index is compared against the raw ST Table
Size field. -/
def msix_index_in_bound (d : Dev) (msi_idx : Nat) : Bool :=
  msi_idx ≤ field_get PCI_TPH_CAP_ST_MASK PCI_TPH_CAP_ST_SHIFT d.capReg

/-- C `tph_write_tag_to_msix`: bound check, MSI descriptor lookup, then
read-modify-write of the upper 16 bits of the vector control register. -/
def tph_write_tag_to_msix (d : Dev) (msi_idx tag : Nat) : Int × Dev × List Ev :=
  if msix_index_in_bound d msi_idx = false then (-EINVAL, d, [])
  else if d.msiDescs.contains msi_idx = false then (- ENXIO, d, [])
  else
    let v := d.msixVecCtrl msi_idx
    let v2 := (v &&& 0xffff) ||| (tag <<< 16)
    ((0 : Int),
     { d with msixVecCtrl := fun i => if i = msi_idx then v2 else d.msixVecCtrl i },
     [Ev.msixWrite msi_idx v2])

/-- C `get_rp_completer_support` (steering-tag variant of
`get_rp_completer_type`). -/
def get_rp_completer_support (d : Dev) : Nat :=
  match d.rpDevcap2 with
  | none => 0
  | some reg => field_get PCI_EXP_DEVCAP2_TPH_COMP_MASK PCI_EXP_DEVCAP2_TPH_COMP_SHIFT reg

/-- C `rp_completer_support_ok`. -/
def rp_completer_support_ok (d : Dev) (req_cap : Nat) : Bool :=
  req_cap ≤ get_rp_completer_support d

/-- C `pcie_tph_disable` (steering-tag variant): clear only the Requester
Enable field, leaving the bookkeeping fields alone. -/
def pcie_tph_disable (d : Dev) : Dev × List Ev :=
  if d.tph_cap = 0 then (d, [])
  else set_ctrl_reg_req_en d PCI_TPH_REQ_DISABLE

/-- C `pcie_tph_set_nostmode`. -/
def pcie_tph_set_nostmode (d : Dev) : Dev × List Ev :=
  if d.tph_cap = 0 then (d, [])
  else
    let m := set_ctrl_reg_mode_sel d PCI_TPH_NO_ST_MODE
    let e := set_ctrl_reg_req_en m.1 PCI_TPH_REQ_TPH_ONLY
    (e.1, m.2 ++ e.2)

/-- C `pcie_tph_write_st` (steering-tag variant of tph.c). -/
def pcie_tph_write_st (pol : Policy) (d : Dev) (msix_idx req_type tag : Nat) :
    Int × Dev × List Ev :=
  -- setting ST is not needed: not an error, just return OK
  if d.tph_cap = 0 ∨ pol.notph = true ∨ pol.nostmode = true ∨
     d.msix_enabled = false ∨ int_vec_mode_supported d = false then
    ((0 : Int), d, [])
  -- setting ST is incorrect: return error
  else if msix_index_in_bound d msix_idx = false ∨
          rp_completer_support_ok d req_type = false then
    (-EINVAL, d, [])
  else
    let dt := pcie_tph_disable d
    let loc := field_prep PCI_TPH_CAP_LOC_MASK PCI_TPH_CAP_LOC_SHIFT (get_st_table_loc dt.1)
    if loc = PCI_TPH_LOC_MSIX then
      let wr := tph_write_tag_to_msix dt.1 msix_idx tag
      if wr.1 = 0 then
        let m := set_ctrl_reg_mode_sel wr.2.1 PCI_TPH_INT_VEC_MODE
        let e := set_ctrl_reg_req_en m.1 req_type
        ((0 : Int), e.1, dt.2 ++ wr.2.2 ++ m.2 ++ e.2)
      else (wr.1, wr.2.1, dt.2 ++ wr.2.2)
    else if loc = PCI_TPH_LOC_CAP then
      let off := dt.1.tph_cap + PCI_TPH_BASE_SIZEOF + msix_idx * 2
      let m := set_ctrl_reg_mode_sel dt.1 PCI_TPH_INT_VEC_MODE
      let e := set_ctrl_reg_req_en m.1 req_type
      ((0 : Int), e.1, dt.2 ++ [Ev.cfgWriteWord off tag] ++ m.2 ++ e.2)
    else
      (-EINVAL, dt.1, dt.2)

/-! Steering-tag info accessors over the raw 64-bit _DSM reply
(`union st_info`). -/

def vm_st_valid (v : Nat) : Nat := v &&& 1
def vm_xst_valid (v : Nat) : Nat := (v >>> 1) &&& 1
def vm_ph_ignore (v : Nat) : Nat := (v >>> 2) &&& 1
def vm_st (v : Nat) : Nat := (v >>> 8) &&& 0xff
def vm_xst (v : Nat) : Nat := (v >>> 16) &&& 0xffff
def pm_st_valid (v : Nat) : Nat := (v >>> 32) &&& 1
def pm_xst_valid (v : Nat) : Nat := (v >>> 33) &&& 1
def pm_ph_ignore (v : Nat) : Nat := (v >>> 34) &&& 1
def pm_st (v : Nat) : Nat := (v >>> 40) &&& 0xff
def pm_xst (v : Nat) : Nat := (v >>> 48) &&& 0xffff

/-- C `tph_extract_tag`: pure decode of the _DSM reply for a requested
memory class and request type. -/
def tph_extract_tag (mem_type : TphMemType) (req_type : Nat) (st : Nat) : Nat :=
  if req_type = PCI_TPH_REQ_TPH_ONLY then
    match mem_type with
    | .vm => if vm_st_valid st ≠ 0 then vm_st st else 0
    | .pm => if pm_st_valid st ≠ 0 then pm_st st else 0
  else if req_type = PCI_TPH_REQ_EXT_TPH then
    match mem_type with
    | .vm => if vm_xst_valid st ≠ 0 then vm_xst st else 0
    | .pm => if pm_xst_valid st ≠ 0 then pm_xst st else 0
  else 0

/-- C `pcie_tph_intr_vec_supported`. -/
def pcie_tph_intr_vec_supported (pol : Policy) (d : Dev) : Bool :=
  if d.tph_cap = 0 ∨ pol.notph = true ∨ d.msix_enabled = false ∨
     int_vec_mode_supported d = false then false
  else true

/-- C `pcie_tph_get_st_from_acpi`.  `tagIn` models the `*tag` of the caller
before the call (the C code leaves it untouched on the -ENODEV paths);
the result pair is (status, `*tag` after the call). -/
def pcie_tph_get_st_from_acpi (d : Dev) (cpu_acpi_uid : Nat) (mem_type : TphMemType)
    (req_type : Nat) (tagIn : Nat) : Int × Nat :=
  if d.tph_cap = 0 then (-ENODEV, tagIn)
  else if d.rpBridgeFound = false then (-ENODEV, tagIn)
  else
    match d.dsmReply cpu_acpi_uid with
    | none => (-EINVAL, 0)
    | some info => ((0 : Int), tph_extract_tag mem_type req_type info)

/-- C `pcie_tph_set_st`: resolve the tag via ACPI, then write it.  The local
`tag` variable is uninitialized in C and unused on the error path; it is
seeded with 0 here. -/
def pcie_tph_set_st (pol : Policy) (d : Dev) (msix_idx cpu_acpi_uid : Nat)
    (mem_type : TphMemType) (req_type : Nat) : Int × Dev × List Ev :=
  if d.tph_cap = 0 then (-ENODEV, d, [])
  else
    let r := pcie_tph_get_st_from_acpi d cpu_acpi_uid mem_type req_type 0
    if r.1 ≠ 0 then (r.1, d, [])
    else pcie_tph_write_st pol d msix_idx req_type r.2

/-! ## Historical variant (2023): the `can_set_st` guard and its callers.
The functions below embed the earlier iteration of the subsystem, which
routes register access through `tph_get_reg_field_u32`/`tph_set_reg_field_u32`
and guards the table write with `can_set_st`.  Its entry points carry a
`_v1` suffix where the C name collides with the final variant. -/

/-- Register file addressed by capability-relative offset, as read by the
accessors of the variant. -/
def readTphReg (d : Dev) (off : Nat) : Nat :=
  if off = PCI_TPH_CAP then d.capReg
  else if off = PCI_TPH_CTRL then d.ctrlReg
  else 0

/-- Register-file update for the write-back of `tph_set_reg_field_u32`. -/
def writeTphReg (d : Dev) (off v : Nat) : Dev :=
  if off = PCI_TPH_CAP then { d with capReg := v }
  else if off = PCI_TPH_CTRL then { d with ctrlReg := v }
  else d

/-- C `tph_get_reg_field_u32`: `none` models the -EINVAL return when the
capability is absent; reads of present registers succeed. -/
def tph_get_reg_field_u32 (d : Dev) (off mask shift : Nat) : Option Nat :=
  if d.tph_cap = 0 then none
  else some ((readTphReg d off &&& mask) >>> shift)

/-- C `tph_set_reg_field_u32`. -/
def tph_set_reg_field_u32 (d : Dev) (off mask shift fld : Nat) : Int × Dev × List Ev :=
  if d.tph_cap = 0 then (-EINVAL, d, [])
  else
    let reg := readTphReg d off
    let reg2 := (reg &&& mask32c mask) ||| ((fld <<< shift) &&& mask)
    ((0 : Int), writeTphReg d off reg2, [Ev.cfgWrite (d.tph_cap + off) reg2])

/-- C `tph_get_table_size` (variant). -/
def tph_get_table_size (d : Dev) : Option Nat :=
  tph_get_reg_field_u32 d PCI_TPH_CAP PCI_TPH_CAP_ST_MASK PCI_TPH_CAP_ST_SHIFT

/-- C `tph_int_vec_mode_supported` (variant).  The C code checks only that
the register read succeeded and ignores the extracted field value, so this
is true exactly when the capability is present. -/
def tph_int_vec_mode_supported (d : Dev) : Bool :=
  (tph_get_reg_field_u32 d PCI_TPH_CAP PCI_TPH_CAP_INT_VEC PCI_TPH_CAP_INT_VEC_SHIFT).isSome

/-- C `tph_get_table_location` (variant): the extracted location field
(values 0..3, not the in-place mask values). -/
def tph_get_table_location (d : Dev) : Option Nat :=
  tph_get_reg_field_u32 d PCI_TPH_CAP PCI_TPH_CAP_LOC_MASK PCI_TPH_CAP_LOC_SHIFT

/-- C `pcie_tph_retrieve_st` (variant): a stub that always returns tag 0. -/
def pcie_tph_retrieve_st (_d : Dev) (_cpu : Nat) (_tag_type : TphMemType)
    (_req_enable : Nat) : Nat := 0

/-- C `msix_nr_in_bounds` (variant). -/
def msix_nr_in_bounds (d : Dev) (msix_nr : Nat) : Bool :=
  match tph_get_table_size d with
  | none => false
  | some sz => msix_nr ≤ sz

/-- C `get_root_port_completer_cap` (variant). -/
def get_root_port_completer_cap (d : Dev) : Nat :=
  match d.rpDevcap2 with
  | none => 0
  | some reg => (reg &&& PCI_EXP_DEVCAP2_TPH_COMP_MASK) >>> PCI_EXP_DEVCAP2_TPH_COMP_SHIFT

/-- C `completer_support_ok` (variant). -/
def completer_support_ok (d : Dev) (req : Nat) : Bool :=
  req ≤ get_root_port_completer_cap d

/-- C `no_st_mode_supported` (variant): false when the register read fails
or when the No-ST-mode bit is clear. -/
def no_st_mode_supported (d : Dev) : Bool :=
  match tph_get_reg_field_u32 d PCI_TPH_CAP PCI_TPH_CAP_NO_ST PCI_TPH_CAP_NO_ST_SHIFT with
  | none => false
  | some t => t ≠ 0

/-- C `can_set_st` (variant): sanity check before setting steering tags.
The `st_mode` parameter is accepted but unused, as in the C source. -/
def can_set_st (pol : Policy) (d : Dev) (st_mode req_enable : Nat) (msix_nr : Nat) : Bool :=
  if d.tph_cap = 0 ∨ d.msix_enabled = false ∨
     tph_int_vec_mode_supported d = false ∨ pol.notph = true ∨
     pol.nostmode = true ∨ msix_nr_in_bounds d msix_nr = false ∨
     completer_support_ok d req_enable = false ∨
     no_st_mode_supported d = false then false
  else true

/-- C `pcie_tph_disable` (variant, int-returning). -/
def pcie_tph_disable_v1 (d : Dev) : Int × Dev × List Ev :=
  tph_set_reg_field_u32 d PCI_TPH_CTRL PCI_TPH_CTRL_REQ_EN_MASK
    PCI_TPH_CTRL_REQ_EN_SHIFT PCI_TPH_REQ_DISABLE

/-- C `tph_write_ctrl_reg` (variant): on a failed write, defensively force
TPH off. -/
def tph_write_ctrl_reg (d : Dev) (value : Nat) : Int × Dev × List Ev :=
  let w := tph_set_reg_field_u32 d PCI_TPH_CTRL 0xFFFFFFFF 0 value
  if w.1 = 0 then w
  else
    let dis := pcie_tph_disable_v1 w.2.1
    (w.1, dis.2.1, w.2.2 ++ dis.2.2)

/-- C `tph_set_ctrl_reg_mode_sel` (variant). -/
def tph_set_ctrl_reg_mode_sel (d : Dev) (st_mode : Nat) : Int × Dev × List Ev :=
  match tph_get_reg_field_u32 d PCI_TPH_CTRL 0xFFFFFFFF 0 with
  | none => (-EINVAL, d, [])
  | some ctrl =>
    let ctrl2 := (ctrl &&& mask32c PCI_TPH_CTRL_MODE_SEL_MASK) |||
                 ((st_mode <<< PCI_TPH_CTRL_MODE_SEL_SHIFT) &&& PCI_TPH_CTRL_MODE_SEL_MASK)
    tph_write_ctrl_reg d ctrl2

/-- C `tph_set_ctrl_reg_en` (variant). -/
def tph_set_ctrl_reg_en (d : Dev) (req_enable : Nat) : Int × Dev × List Ev :=
  match tph_get_reg_field_u32 d PCI_TPH_CTRL 0xFFFFFFFF 0 with
  | none => (-EINVAL, d, [])
  | some ctrl =>
    let ctrl2 := (ctrl &&& mask32c PCI_TPH_CTRL_REQ_EN_MASK) |||
                 ((req_enable <<< PCI_TPH_CTRL_REQ_EN_SHIFT) &&& PCI_TPH_CTRL_REQ_EN_MASK)
    tph_write_ctrl_reg d ctrl2

/-- C `tph_write_tag_to_msix` (variant, void).  When the vector-control
address lookup would return NULL (table-size read failure or index out of
bound), the C code would dereference NULL; that path is unreachable from
`pcie_tph_write_st_v1`, whose guard has already checked the bound, and is
modelled as a no-op. -/
def tph_write_tag_to_msix_v1 (d : Dev) (msix_nr tag : Nat) : Dev × List Ev :=
  if d.msiDescs.contains msix_nr = false then (d, [])
  else
    match tph_get_table_size d with
    | none => (d, [])
    | some sz =>
      if sz < msix_nr then (d, [])
      else
        let v := d.msixVecCtrl msix_nr
        let v2 := (v &&& 0xffff) ||| (tag <<< 16)
        ({ d with msixVecCtrl := fun i => if i = msix_nr then v2 else d.msixVecCtrl i },
         [Ev.msixWrite msix_nr v2])

/-- C `pcie_tph_write_st` (variant, bool-returning; renamed `_v1` to avoid
the name collision with the final variant). -/
def pcie_tph_write_st_v1 (pol : Policy) (d : Dev) (msix_nr req_enable tag : Nat) :
    Bool × Dev × List Ev :=
  if can_set_st pol d PCI_TPH_INT_VEC_MODE req_enable msix_nr = false then
    (false, d, [])
  else
    let dis := pcie_tph_disable_v1 d
    match tph_get_table_location dis.2.1 with
    | none => (false, dis.2.1, dis.2.2)
    | some loc =>
      if loc = PCI_TPH_LOC_MSIX then
        let wr := tph_write_tag_to_msix_v1 dis.2.1 msix_nr tag
        let m := tph_set_ctrl_reg_mode_sel wr.1 PCI_TPH_INT_VEC_MODE
        let e := tph_set_ctrl_reg_en m.2.1 req_enable
        (true, e.2.1, dis.2.2 ++ wr.2 ++ m.2.2 ++ e.2.2)
      else if loc = PCI_TPH_LOC_CAP then
        let off := dis.2.1.tph_cap + PCI_TPH_ST_TABLE + msix_nr * 2
        let m := tph_set_ctrl_reg_mode_sel dis.2.1 PCI_TPH_INT_VEC_MODE
        let e := tph_set_ctrl_reg_en m.2.1 req_enable
        (true, e.2.1, dis.2.2 ++ [Ev.cfgWriteWord off tag] ++ m.2.2 ++ e.2.2)
      else (false, dis.2.1, dis.2.2)

/-! ## Specification-side definition for the request-type negotiation -/

/-- Negotiated request type as the specification words it: the minimum of
the supported tag-width type of the device (extended when the capability
extended-TPH bit of the register is set, otherwise basic) and the completer
type of the Root Port.  Written from the spec, to be compared with what
`pcie_enable_tph` computes. -/
def spec_negotiated_req_type (d : Dev) : Nat :=
  min (if d.capReg &&& PCI_TPH_CAP_EXT_TPH ≠ 0
       then PCI_TPH_REQ_EXT_TPH else PCI_TPH_REQ_TPH_ONLY)
      (get_rp_completer_type d)

/-! ## Trace predicates -/

/-- An event that commits a steering tag to its backing store: an ST-table
config-space word write or an MSI-X vector-control write. -/
def isTagWrite : Ev → Bool
  | .cfgWriteWord _ _ => true
  | .msixWrite _ _ => true
  | .cfgWrite _ _ => false

/-! ## Concrete devices used as witnesses and counterexamples -/

/-- Policy with both global switches off. -/
def pol0 : Policy := ⟨false, false⟩

/-- Device advertising extended TPH (capability register 0x103 =
NO_ST | INT_VEC | EXT_TPH) below a Root Port whose DEVCAP2 advertises the
extended completer type (field value 3). -/
def devExt : Dev where
  tph_cap := 0x100
  tph_enabled := false
  tph_mode := 0
  tph_req_type := 0
  capReg := 0x103
  ctrlReg := 0
  msix_enabled := true
  rpDevcap2 := some 0x3000
  msiDescs := []
  msixVecCtrl := fun _ => 0
  rpBridgeFound := true
  dsmReply := fun _ => some 0

/-- Device whose capability register lacks the No-ST-mode bit but supports
interrupt-vector mode, with the ST table in capability space (location
field 1) and ST Table Size field 4. -/
def devNoSt : Dev where
  tph_cap := 0x100
  tph_enabled := false
  tph_mode := 0
  tph_req_type := 0
  capReg := 0x40202
  ctrlReg := 0
  msix_enabled := true
  rpDevcap2 := some 0x3000
  msiDescs := []
  msixVecCtrl := fun _ => 0
  rpBridgeFound := true
  dsmReply := fun _ => some 0

/-- Device with NO_ST and INT_VEC support, ST Table Size field 4, table in
capability space, below a basic-completer Root Port (field value 1). -/
def devBasic : Dev where
  tph_cap := 0x100
  tph_enabled := false
  tph_mode := 0
  tph_req_type := 0
  capReg := 0x40203
  ctrlReg := 0
  msix_enabled := true
  rpDevcap2 := some 0x1000
  msiDescs := []
  msixVecCtrl := fun _ => 0
  rpBridgeFound := true
  dsmReply := fun _ => some 0

/-- Device with the TPH capability but no Root Port (completer type 0), so
request-type negotiation fails closed. -/
def devNoRp : Dev where
  tph_cap := 0x100
  tph_enabled := false
  tph_mode := 0
  tph_req_type := 0
  capReg := 0x3
  ctrlReg := 0
  msix_enabled := true
  rpDevcap2 := none
  msiDescs := []
  msixVecCtrl := fun _ => 0
  rpBridgeFound := true
  dsmReply := fun _ => some 0

/-- Device without the TPH capability. -/
def devNoCap : Dev where
  tph_cap := 0
  tph_enabled := false
  tph_mode := 0
  tph_req_type := 0
  capReg := 0
  ctrlReg := 0
  msix_enabled := true
  rpDevcap2 := some 0x3000
  msiDescs := []
  msixVecCtrl := fun _ => 0
  rpBridgeFound := true
  dsmReply := fun _ => some 0

/-! ## Helper lemmas -/

lemma field_prep_req_en_zero :
    field_prep PCI_TPH_CTRL_REQ_EN_MASK PCI_TPH_CTRL_REQ_EN_SHIFT PCI_TPH_REQ_DISABLE = 0 := by
  decide

/-- Clearing the Requester Enable field by read-modify-write leaves that
field at the disabled value, whatever the register held before. -/
lemma field_get_req_en_cleared (x : Nat) :
    field_get PCI_TPH_CTRL_REQ_EN_MASK PCI_TPH_CTRL_REQ_EN_SHIFT
      ((x &&& mask32c PCI_TPH_CTRL_REQ_EN_MASK) |||
       field_prep PCI_TPH_CTRL_REQ_EN_MASK PCI_TPH_CTRL_REQ_EN_SHIFT PCI_TPH_REQ_DISABLE) =
    PCI_TPH_REQ_DISABLE := by
  rw [field_prep_req_en_zero, Nat.or_zero]
  simp only [field_get]
  rw [Nat.and_assoc]
  have h : mask32c PCI_TPH_CTRL_REQ_EN_MASK &&& PCI_TPH_CTRL_REQ_EN_MASK = 0 := by decide
  rw [h, Nat.and_zero]
  decide

/-- Shape of the steering-tag variant of `pcie_tph_disable` when the
capability is present: one control-register write clearing Requester
Enable. -/
lemma pcie_tph_disable_shape (d : Dev) (h : d.tph_cap ≠ 0) :
    pcie_tph_disable d =
      ({ d with ctrlReg := (d.ctrlReg &&& mask32c PCI_TPH_CTRL_REQ_EN_MASK) |||
           field_prep PCI_TPH_CTRL_REQ_EN_MASK PCI_TPH_CTRL_REQ_EN_SHIFT PCI_TPH_REQ_DISABLE },
       [Ev.cfgWrite (d.tph_cap + PCI_TPH_CTRL)
          ((d.ctrlReg &&& mask32c PCI_TPH_CTRL_REQ_EN_MASK) |||
           field_prep PCI_TPH_CTRL_REQ_EN_MASK PCI_TPH_CTRL_REQ_EN_SHIFT PCI_TPH_REQ_DISABLE)]) := by
  unfold pcie_tph_disable set_ctrl_reg_req_en
  rw [if_neg h]

/-- The MSI-X tag writer changes nothing and logs nothing when it fails. -/
lemma tph_write_tag_to_msix_err_shape (d : Dev) (i t : Nat)
    (h : (tph_write_tag_to_msix d i t).1 ≠ 0) :
    (tph_write_tag_to_msix d i t).2.1 = d ∧ (tph_write_tag_to_msix d i t).2.2 = [] := by
  unfold tph_write_tag_to_msix at h ⊢
  split
  · exact ⟨rfl, rfl⟩
  · rename_i hc1
    split
    · exact ⟨rfl, rfl⟩
    · rename_i hc2
      rw [if_neg hc1, if_neg hc2] at h
      exact (h rfl).elim

/-! ## Claim theorems -/

/-- C9: when the device lacks the TPH capability, a global policy switch
(disable-TPH or force-no-ST) is set, MSI-X is not enabled, or
interrupt-vector mode is not hardware-supported, `pcie_tph_write_st`
returns success (0) without writing any tag or touching any register. -/
theorem write_st_skips_when_not_needed (pol : Policy) (d : Dev) (idx rt tag : Nat)
    (h : d.tph_cap = 0 ∨ pol.notph = true ∨ pol.nostmode = true ∨
         d.msix_enabled = false ∨ int_vec_mode_supported d = false) :
    pcie_tph_write_st pol d idx rt tag = (0, d, []) := by
  unfold pcie_tph_write_st
  rw [if_pos h]

/-- Witness for C9 at a concrete capability-less device. -/
theorem write_st_skips_when_not_needed_witness :
    pcie_tph_write_st pol0 devNoCap 0 1 9 = (0, devNoCap, []) :=
  write_st_skips_when_not_needed pol0 devNoCap 0 1 9 (by decide)

/-- C6: on a device whose capability offset is 0, every public operation
(enable, disable, query modes, enabled, interrupt-vector supported, set
steering tag, get steering tag via ACPI) returns a
not-supported/false/zero indication and performs zero register writes. -/
theorem no_cap_all_ops_noop (pol : Policy) (d : Dev) (mode msix_idx cpu_uid : Nat)
    (mt : TphMemType) (rt tagIn : Nat)
    (hcap : d.tph_cap = 0) (hen : d.tph_enabled = false) :
    pcie_enable_tph d mode = (-EINVAL, d, []) ∧
    pcie_disable_tph d = (d, []) ∧
    pcie_tph_modes d = 0 ∧
    pcie_tph_enabled d = false ∧
    pcie_tph_intr_vec_supported pol d = false ∧
    pcie_tph_set_st pol d msix_idx cpu_uid mt rt = (-ENODEV, d, []) ∧
    pcie_tph_get_st_from_acpi d cpu_uid mt rt tagIn = (-ENODEV, tagIn) := by
  refine ⟨?_, ?_, ?_, ?_, ?_, ?_, ?_⟩
  · unfold pcie_enable_tph; rw [if_pos hcap]
  · unfold pcie_disable_tph; rw [if_pos hcap]
  · unfold pcie_tph_modes; rw [if_pos hcap]
  · exact hen
  · unfold pcie_tph_intr_vec_supported; rw [if_pos (Or.inl hcap)]
  · unfold pcie_tph_set_st; rw [if_pos hcap]
  · unfold pcie_tph_get_st_from_acpi; rw [if_pos hcap]

/-- Witness for C6 at a concrete capability-less device. -/
theorem no_cap_all_ops_noop_witness :
    pcie_enable_tph devNoCap 2 = (-EINVAL, devNoCap, []) ∧
    pcie_disable_tph devNoCap = (devNoCap, []) ∧
    pcie_tph_modes devNoCap = 0 ∧
    pcie_tph_enabled devNoCap = false ∧
    pcie_tph_intr_vec_supported pol0 devNoCap = false ∧
    pcie_tph_set_st pol0 devNoCap 0 3 TphMemType.vm 1 = (-ENODEV, devNoCap, []) ∧
    pcie_tph_get_st_from_acpi devNoCap 3 TphMemType.vm 1 55 = (-ENODEV, 55) :=
  no_cap_all_ops_noop pol0 devNoCap 2 0 3 TphMemType.vm 1 55 (by decide) (by decide)

/-- C7: with the capability present, `pcie_enable_tph` fails with -EBUSY
when already enabled and with -EINVAL when the requested mode is not in the
supported-modes bitmask of the device; in both cases the device state is
unchanged and no register is written. -/
theorem enable_busy_or_bad_mode (d : Dev) (mode : Nat) (hcap : d.tph_cap ≠ 0) :
    (d.tph_enabled = true → pcie_enable_tph d mode = (-EBUSY, d, [])) ∧
    (d.tph_enabled = false → mode &&& get_st_modes d = 0 →
       pcie_enable_tph d mode = (-EINVAL, d, [])) := by
  constructor
  · intro hen
    unfold pcie_enable_tph
    rw [if_neg hcap, if_pos hen]
  · intro hen hmode
    unfold pcie_enable_tph
    rw [if_neg hcap, if_neg (by simp [hen]), if_pos hmode]

/-- Witness for C7: a device already enabled, and an unsupported mode. -/
theorem enable_busy_or_bad_mode_witness :
    pcie_enable_tph { devExt with tph_enabled := true } 2 =
      (-EBUSY, { devExt with tph_enabled := true }, []) ∧
    pcie_enable_tph devNoRp 4 = (-EINVAL, devNoRp, []) :=
  ⟨(enable_busy_or_bad_mode { devExt with tph_enabled := true } 2 (by decide)).1 (by decide),
   (enable_busy_or_bad_mode devNoRp 4 (by decide)).2 (by decide) (by decide)⟩

/-- C5: with an ST Table Size field of 4, a table write at slot 5 fails with
-EINVAL before the disable-then-write sequence: the state is unchanged and
no register write (in particular no disable) is issued. -/
theorem write_st_out_of_bound (pol : Policy) (d : Dev) (rt tag : Nat)
    (hcap : d.tph_cap ≠ 0) (hnotph : pol.notph = false) (hnost : pol.nostmode = false)
    (hmsix : d.msix_enabled = true) (hivm : int_vec_mode_supported d = true)
    (hsz : field_get PCI_TPH_CAP_ST_MASK PCI_TPH_CAP_ST_SHIFT d.capReg = 4) :
    pcie_tph_write_st pol d 5 rt tag = (-EINVAL, d, []) := by
  unfold pcie_tph_write_st
  rw [if_neg (by simp [hcap, hnotph, hnost, hmsix, hivm])]
  rw [if_pos (Or.inl (by simp [msix_index_in_bound, hsz]))]

/-- Witness for C5 at a concrete device with table size field 4. -/
theorem write_st_out_of_bound_witness :
    pcie_tph_write_st pol0 devBasic 5 1 7 = (-EINVAL, devBasic, []) :=
  write_st_out_of_bound pol0 devBasic 1 7 (by decide) (by decide) (by decide)
    (by decide) (by decide) (by decide)

/-- C4: `tph_extract_tag` returns the 8-bit tag of the requested memory
class exactly when the basic valid-bit of that class is set (request type
TPH-only), the 16-bit tag exactly when the extended valid-bit is set
(request type extended), and 0 for any other request type; on a _DSM reply
`pcie_tph_get_st_from_acpi` outputs exactly that decoded tag, and on a
failed _DSM it outputs 0 — never the previous tag value of the caller. -/
theorem extract_tag_decode (v rt : Nat) (d : Dev) (uid tagIn : Nat) :
    (tph_extract_tag TphMemType.vm PCI_TPH_REQ_TPH_ONLY v =
       if vm_st_valid v ≠ 0 then vm_st v else 0) ∧
    (tph_extract_tag TphMemType.pm PCI_TPH_REQ_TPH_ONLY v =
       if pm_st_valid v ≠ 0 then pm_st v else 0) ∧
    (tph_extract_tag TphMemType.vm PCI_TPH_REQ_EXT_TPH v =
       if vm_xst_valid v ≠ 0 then vm_xst v else 0) ∧
    (tph_extract_tag TphMemType.pm PCI_TPH_REQ_EXT_TPH v =
       if pm_xst_valid v ≠ 0 then pm_xst v else 0) ∧
    (∀ mt, rt ≠ PCI_TPH_REQ_TPH_ONLY → rt ≠ PCI_TPH_REQ_EXT_TPH →
       tph_extract_tag mt rt v = 0) ∧
    (d.tph_cap ≠ 0 → d.rpBridgeFound = true →
       ∀ mt, (d.dsmReply uid = some v →
          pcie_tph_get_st_from_acpi d uid mt rt tagIn = (0, tph_extract_tag mt rt v)) ∧
         (d.dsmReply uid = none →
          pcie_tph_get_st_from_acpi d uid mt rt tagIn = (-EINVAL, 0))) := by
  refine ⟨by simp [tph_extract_tag, PCI_TPH_REQ_TPH_ONLY],
          by simp [tph_extract_tag, PCI_TPH_REQ_TPH_ONLY],
          by simp [tph_extract_tag, PCI_TPH_REQ_EXT_TPH, PCI_TPH_REQ_TPH_ONLY],
          by simp [tph_extract_tag, PCI_TPH_REQ_EXT_TPH, PCI_TPH_REQ_TPH_ONLY],
          ?_, ?_⟩
  · intro mt h1 h3
    unfold tph_extract_tag
    rw [if_neg h1, if_neg h3]
  · intro hcap hrp mt
    constructor
    · intro hdsm
      unfold pcie_tph_get_st_from_acpi
      rw [if_neg hcap, if_neg (by simp [hrp]), hdsm]
    · intro hdsm
      unfold pcie_tph_get_st_from_acpi
      rw [if_neg hcap, if_neg (by simp [hrp]), hdsm]

/-- Witness for C4: an unknown request type on a concrete reply decodes to
tag 0 through the ACPI query, regardless of the previous tag value 77. -/
theorem extract_tag_decode_witness :
    pcie_tph_get_st_from_acpi devExt 0 TphMemType.vm 5 77 = (0, 0) := by
  have h := ((extract_tag_decode 0 5 devExt 0 77).2.2.2.2.2
      (by decide) (by decide) TphMemType.vm).1 (by decide)
  rw [h]
  have h0 := (extract_tag_decode 0 5 devExt 0 77).2.2.2.2.1 TphMemType.vm
      (by decide) (by decide)
  rw [h0]

/-- C1 (code bug): `pcie_enable_tph` is meant to negotiate the request type
as min(device tag-width type, Root Port completer type), but the statement
`reg = pci_read_config_dword(pdev, pdev->tph_cap + PCI_TPH_CAP, &reg);`
overwrites the just-read capability register with the status return of the call,
so the extended-TPH bit is never seen: on a device advertising extended TPH
below an extended-completer Root Port, enable succeeds with the negotiated
type basic (1) where the specified minimum is extended (3). -/
theorem enable_negotiation_overwritten :
    devExt.capReg &&& PCI_TPH_CAP_EXT_TPH ≠ 0 ∧
    get_rp_completer_type devExt = PCI_TPH_REQ_EXT_TPH ∧
    spec_negotiated_req_type devExt = PCI_TPH_REQ_EXT_TPH ∧
    (pcie_enable_tph devExt PCI_TPH_CAP_INT_VEC).1 = 0 ∧
    (pcie_enable_tph devExt PCI_TPH_CAP_INT_VEC).2.1.tph_req_type = PCI_TPH_REQ_TPH_ONLY ∧
    (pcie_enable_tph devExt PCI_TPH_CAP_INT_VEC).2.1.tph_req_type ≠
      spec_negotiated_req_type devExt := by
  decide

/-- C3 (counterexample): in the steering-tag variant of tph.c, a device
whose capability register lacks the No-ST-mode bit is NOT rejected by
`pcie_tph_write_st`: the call succeeds and the tag is written to the ST
table. -/
theorem write_st_no_st_not_checked :
    devNoSt.capReg &&& PCI_TPH_CAP_NO_ST = 0 ∧
    (pcie_tph_write_st pol0 devNoSt 1 1 7).1 = 0 ∧
    Ev.cfgWriteWord (devNoSt.tph_cap + PCI_TPH_BASE_SIZEOF + 1 * 2) 7 ∈
      (pcie_tph_write_st pol0 devNoSt 1 1 7).2.2 := by
  decide

/-- C3 (amended): the No-ST-support requirement is enforced by the
historical `can_set_st` guard: for every device whose capability
register lacks the No-ST-mode bit, `can_set_st` is false and that
table writer of that variant fails closed, writing nothing and changing
nothing. -/
theorem can_set_st_requires_no_st (pol : Policy) (d : Dev) (st_mode rt idx tag : Nat)
    (h : d.capReg &&& PCI_TPH_CAP_NO_ST = 0) :
    can_set_st pol d st_mode rt idx = false ∧
    pcie_tph_write_st_v1 pol d idx rt tag = (false, d, []) := by
  have h1 : d.capReg % 2 = 0 := by
    simpa [PCI_TPH_CAP_NO_ST, Nat.and_one_is_mod] using h
  have hns : no_st_mode_supported d = false := by
    by_cases hc : d.tph_cap = 0 <;>
      simp [no_st_mode_supported, tph_get_reg_field_u32, readTphReg, hc,
            PCI_TPH_CAP, PCI_TPH_CTRL, PCI_TPH_CAP_NO_ST, PCI_TPH_CAP_NO_ST_SHIFT,
            Nat.and_one_is_mod, h1]
  have hcs : ∀ sm, can_set_st pol d sm rt idx = false := by
    intro sm
    unfold can_set_st
    rw [if_pos (by tauto)]
  refine ⟨hcs st_mode, ?_⟩
  unfold pcie_tph_write_st_v1
  rw [if_pos (hcs PCI_TPH_INT_VEC_MODE)]

/-- Witness for the amended C3 at a concrete device lacking the No-ST
bit. -/
theorem can_set_st_requires_no_st_witness :
    can_set_st pol0 devNoSt 1 1 1 = false ∧
    pcie_tph_write_st_v1 pol0 devNoSt 1 1 7 = (false, devNoSt, []) :=
  can_set_st_requires_no_st pol0 devNoSt 1 1 1 7 (by decide)

/-- C10: whenever `pcie_enable_tph` returns an error on a device that was
not enabled, no register has been written and `tph_enabled` is still
false; but on the negotiated-type-disabled (-ENOTSUPP) path the
bookkeeping fields `tph_mode` and `tph_req_type` are not rolled back: they
keep exactly the values assigned during the failed attempt (the selected
mode and the disabled request type). -/
theorem enable_error_frame (d : Dev) (mode : Nat) (err : Int) (d' : Dev) (tr : List Ev)
    (hen : d.tph_enabled = false)
    (heq : pcie_enable_tph d mode = (err, d', tr)) (herr : err ≠ 0) :
    tr = [] ∧ d'.tph_enabled = false ∧ d'.ctrlReg = d.ctrlReg ∧
    (err = -ENOTSUPP →
       ∃ m, select_tph_mode mode = some m ∧ d'.tph_mode = m ∧
            d'.tph_req_type = PCI_TPH_REQ_DISABLE) := by
  unfold pcie_enable_tph at heq
  dsimp only at heq
  split at heq
  · cases heq
    exact ⟨rfl, hen, rfl, fun hne => absurd hne (by decide)⟩
  · split at heq
    · simp_all
    · split at heq
      · cases heq
        exact ⟨rfl, hen, rfl, fun hne => absurd hne (by decide)⟩
      · split at heq
        · cases heq
          exact ⟨rfl, hen, rfl, fun hne => absurd hne (by decide)⟩
        · rename_i m hsel
          split at heq <;>
          · split at heq
            · rename_i hfinal
              cases heq
              exact ⟨rfl, hen, rfl, fun _ => ⟨m, hsel, rfl, hfinal⟩⟩
            · cases heq
              exact absurd rfl herr

/-- Witness for C10: a device below no Root Port fails negotiation with
-ENOTSUPP, leaving `tph_enabled` false and the control register unwritten,
while `tph_mode` keeps the selected interrupt-vector mode value. -/
theorem enable_error_frame_witness :
    (pcie_enable_tph devNoRp 2).2.2 = [] ∧
    (pcie_enable_tph devNoRp 2).2.1.tph_enabled = false ∧
    (pcie_enable_tph devNoRp 2).2.1.ctrlReg = devNoRp.ctrlReg ∧
    ((pcie_enable_tph devNoRp 2).1 = -ENOTSUPP →
       ∃ m, select_tph_mode 2 = some m ∧ (pcie_enable_tph devNoRp 2).2.1.tph_mode = m ∧
            (pcie_enable_tph devNoRp 2).2.1.tph_req_type = PCI_TPH_REQ_DISABLE) :=
  enable_error_frame devNoRp 2 (pcie_enable_tph devNoRp 2).1
    (pcie_enable_tph devNoRp 2).2.1 (pcie_enable_tph devNoRp 2).2.2
    (by decide) rfl (by decide)

/-- C8: after a successful enable followed by disable the Requester Enable
field is back at disabled; a second disable is a no-op (same state, no
write); and `pcie_tph_modes` after the disable still returns the
hardware-advertised mode bits of the capability register, unchanged from
before the enable. -/
theorem enable_then_disable (d : Dev) (mode : Nat) (d1 : Dev) (tr1 : List Ev)
    (heq : pcie_enable_tph d mode = (0, d1, tr1)) :
    field_get PCI_TPH_CTRL_REQ_EN_MASK PCI_TPH_CTRL_REQ_EN_SHIFT
      (pcie_disable_tph d1).1.ctrlReg = PCI_TPH_REQ_DISABLE ∧
    pcie_disable_tph (pcie_disable_tph d1).1 = ((pcie_disable_tph d1).1, []) ∧
    pcie_tph_modes (pcie_disable_tph d1).1 = get_st_modes d := by
  unfold pcie_enable_tph at heq
  dsimp only at heq
  split at heq
  · simp [EINVAL] at heq
  · rename_i hcap
    split at heq
    · simp [EBUSY] at heq
    · split at heq
      · simp [EINVAL] at heq
      · split at heq
        · simp [EINVAL] at heq
        · split at heq <;>
          · split at heq
            · simp [ENOTSUPP] at heq
            · simp only [Prod.mk.injEq] at heq
              obtain ⟨-, hd1, -⟩ := heq
              subst hd1
              refine ⟨?_, ?_, ?_⟩
              · simp [pcie_disable_tph, hcap, field_get, PCI_TPH_REQ_DISABLE]
              · simp [pcie_disable_tph, hcap]
              · simp [pcie_disable_tph, pcie_tph_modes, get_st_modes, hcap]

/-- Witness for C8 on a concrete successful enable. -/
theorem enable_then_disable_witness :
    field_get PCI_TPH_CTRL_REQ_EN_MASK PCI_TPH_CTRL_REQ_EN_SHIFT
      (pcie_disable_tph (pcie_enable_tph devExt 2).2.1).1.ctrlReg = PCI_TPH_REQ_DISABLE ∧
    pcie_disable_tph (pcie_disable_tph (pcie_enable_tph devExt 2).2.1).1 =
      ((pcie_disable_tph (pcie_enable_tph devExt 2).2.1).1, []) ∧
    pcie_tph_modes (pcie_disable_tph (pcie_enable_tph devExt 2).2.1).1 =
      get_st_modes devExt :=
  enable_then_disable devExt 2 (pcie_enable_tph devExt 2).2.1
    (pcie_enable_tph devExt 2).2.2 rfl

/-- C2: in `pcie_tph_write_st`, whenever the trace contains a tag write
(MSI-X vector-control or ST-table entry), the very first hardware
operation of the call was a control-register write whose Requester Enable
field is disabled; and whenever the call fails, either nothing was written
at all (precondition failure) or the trace is exactly that disable write
and the device is left with Requester Enable disabled — the
interrupt-vector mode and requested request type are re-selected only
after a successful tag write. -/
theorem write_st_disable_ordering (pol : Policy) (d : Dev) (idx rt tag : Nat)
    (err : Int) (d' : Dev) (tr : List Ev)
    (heq : pcie_tph_write_st pol d idx rt tag = (err, d', tr)) :
    ((∃ e ∈ tr, isTagWrite e = true) →
       ∃ v, tr.head? = some (Ev.cfgWrite (d.tph_cap + PCI_TPH_CTRL) v) ∧
         field_get PCI_TPH_CTRL_REQ_EN_MASK PCI_TPH_CTRL_REQ_EN_SHIFT v =
           PCI_TPH_REQ_DISABLE) ∧
    (err ≠ 0 →
       (d' = d ∧ tr = []) ∨
       (tr = (pcie_tph_disable d).2 ∧ d' = (pcie_tph_disable d).1 ∧
        field_get PCI_TPH_CTRL_REQ_EN_MASK PCI_TPH_CTRL_REQ_EN_SHIFT d'.ctrlReg =
          PCI_TPH_REQ_DISABLE)) := by
  unfold pcie_tph_write_st at heq
  dsimp only at heq
  split at heq
  · simp only [Prod.mk.injEq] at heq
    obtain ⟨h0, hd, htr⟩ := heq
    subst hd; subst htr
    exact ⟨fun h => absurd h (by simp), fun hne => absurd h0.symm hne⟩
  · rename_i hguard
    have hcap : d.tph_cap ≠ 0 := fun hc => hguard (Or.inl hc)
    split at heq
    · simp only [Prod.mk.injEq] at heq
      obtain ⟨h0, hd, htr⟩ := heq
      subst hd; subst htr
      exact ⟨fun h => absurd h (by simp), fun _ => Or.inl ⟨rfl, rfl⟩⟩
    · rw [pcie_tph_disable_shape d hcap] at heq ⊢
      dsimp only at heq ⊢
      split at heq
      · -- ST table located in the MSI-X table
        split at heq
        · -- tag write succeeded; trace is disable ++ tag write ++ re-selects
          simp only [Prod.mk.injEq] at heq
          obtain ⟨h0, hd, htr⟩ := heq
          subst hd; subst htr
          constructor
          · intro _
            refine ⟨(d.ctrlReg &&& mask32c PCI_TPH_CTRL_REQ_EN_MASK) |||
                field_prep PCI_TPH_CTRL_REQ_EN_MASK PCI_TPH_CTRL_REQ_EN_SHIFT
                  PCI_TPH_REQ_DISABLE,
                ?_, field_get_req_en_cleared d.ctrlReg⟩
            simp
          · intro hne; exact absurd h0.symm hne
        · -- tag write failed: trace is the disable write only
          rename_i hwr
          obtain ⟨hw1, hw2⟩ := tph_write_tag_to_msix_err_shape _ idx tag hwr
          simp only [Prod.mk.injEq] at heq
          obtain ⟨h0, hd, htr⟩ := heq
          subst hd; subst htr
          constructor
          · rintro ⟨e, he, hw⟩
            rw [hw2] at he
            simp at he
            subst he
            simp [isTagWrite] at hw
          · intro _
            refine Or.inr ⟨?_, ?_, ?_⟩
            · rw [hw2]; simp
            · rw [hw1]
            · rw [hw1]; exact field_get_req_en_cleared d.ctrlReg
      · split at heq
        · -- ST table located in capability space
          simp only [Prod.mk.injEq] at heq
          obtain ⟨h0, hd, htr⟩ := heq
          subst hd; subst htr
          constructor
          · intro _
            refine ⟨(d.ctrlReg &&& mask32c PCI_TPH_CTRL_REQ_EN_MASK) |||
                field_prep PCI_TPH_CTRL_REQ_EN_MASK PCI_TPH_CTRL_REQ_EN_SHIFT
                  PCI_TPH_REQ_DISABLE,
                ?_, field_get_req_en_cleared d.ctrlReg⟩
            simp
          · intro hne; exact absurd h0.symm hne
        · -- unknown location: error with TPH left disabled
          simp only [Prod.mk.injEq] at heq
          obtain ⟨h0, hd, htr⟩ := heq
          subst hd; subst htr
          constructor
          · rintro ⟨e, he, hw⟩
            simp at he
            subst he
            simp [isTagWrite] at hw
          · intro _
            exact Or.inr ⟨rfl, rfl, field_get_req_en_cleared d.ctrlReg⟩

/-- Witness for C2: on a concrete in-bounds capability-space tag write the
trace starts with the disabling control-register write. -/
theorem write_st_disable_ordering_witness :
    ∃ v,
      (pcie_tph_write_st pol0 devBasic 1 1 7).2.2.head? =
        some (Ev.cfgWrite (devBasic.tph_cap + PCI_TPH_CTRL) v) ∧
      field_get PCI_TPH_CTRL_REQ_EN_MASK PCI_TPH_CTRL_REQ_EN_SHIFT v =
        PCI_TPH_REQ_DISABLE :=
  (write_st_disable_ordering pol0 devBasic 1 1 7
      (pcie_tph_write_st pol0 devBasic 1 1 7).1
      (pcie_tph_write_st pol0 devBasic 1 1 7).2.1
      (pcie_tph_write_st pol0 devBasic 1 1 7).2.2 rfl).1 (by decide)

end Tph
